import Mathlib

/-!
Verification of the two instructional notebooks of the
`StateLibraryVictoria-SLVLAB/how-to-guides` repository: a Named Entity
Recognition (NER) walkthrough built on NLTK, and an IIIF walkthrough that
fetches a presentation manifest and constructs IIIF Image API URLs.

The notebooks' cells are embedded shallowly: pure string construction
becomes Lean string functions, JSON field access becomes an `Except`-valued
accessor on a `Json` datatype, and each network-touching cell is modelled
as a function of an abstract `World` (the HTTP layer, the JSON parser and
the image decoder) that also records the list of GET request URLs it
issues, so that traces of the notebook's network activity can be reasoned
about.  The external NLTK toolkit is not part of the repository; its three
entry points are modelled from the spec by the outputs the notebook records
for the one fixed input sentence.
-/

set_option maxRecDepth 8192

/-! ## NER notebook -/

/-- The fixed input sentence (source: the `about_slv` cell of
`SLV_LAB_getting_started_NER.ipynb`, a Python triple-quoted string). -/
def about_slv : String :=
  "\n    Located in Melbourne, it was established in 1854 as the Melbourne Public Library,\n    making it Australia's oldest public library and one of the first free libraries in the world.\n    "

/-- Modelled from the spec: `nltk.word_tokenize`, the external NLTK
tokenizer, which is absent from this repository.  The spec says that
tokenizing the fixed sentence yields a fixed known token sequence; the
function is specified by the output the tokenisation cell records for
`about_slv` and is left trivial elsewhere. -/
def nltk_word_tokenize (s : String) : List String :=
  if s = about_slv then
    ["Located", "in", "Melbourne", ",", "it", "was", "established", "in",
     "1854", "as", "the", "Melbourne", "Public", "Library", ",", "making",
     "it", "Australia", "'s", "oldest", "public", "library", "and", "one",
     "of", "the", "first", "free", "libraries", "in", "the", "world", "."]
  else []

/-- Modelled from the spec: `nltk.pos_tag`, the external NLTK
part-of-speech tagger, absent from this repository; specified by the
output the tagging cell records for the tokens of `about_slv` and left
trivial elsewhere. -/
def nltk_pos_tag (ts : List String) : List (String × String) :=
  if ts = nltk_word_tokenize about_slv then
    [("Located", "VBN"), ("in", "IN"), ("Melbourne", "NNP"), (",", ","),
     ("it", "PRP"), ("was", "VBD"), ("established", "VBN"), ("in", "IN"),
     ("1854", "CD"), ("as", "IN"), ("the", "DT"), ("Melbourne", "NNP"),
     ("Public", "NNP"), ("Library", "NNP"), (",", ","), ("making", "VBG"),
     ("it", "PRP"), ("Australia", "NNP"), ("'s", "POS"), ("oldest", "JJS"),
     ("public", "JJ"), ("library", "NN"), ("and", "CC"), ("one", "CD"),
     ("of", "IN"), ("the", "DT"), ("first", "JJ"), ("free", "JJ"),
     ("libraries", "NNS"), ("in", "IN"), ("the", "DT"), ("world", "NN"),
     (".", ".")]
  else ts.map fun t => (t, "")

/-- The labelled tree produced by the NLTK entity chunker: leaves are
(token, part-of-speech tag) pairs, inner nodes carry an entity label
(the root carries the sentence label `S`). -/
inductive NETree where
  | leaf (token tag : String)
  | node (label : String) (children : List NETree)
deriving Repr

/-- Modelled from the spec: `nltk.ne_chunk`, the external NLTK named-entity
chunker, absent from this repository; specified by the tree the chunking
cell records for the tagged tokens of `about_slv` and left trivial (a flat
`S` tree) elsewhere. -/
def nltk_ne_chunk (ts : List (String × String)) : NETree :=
  if ts = nltk_pos_tag (nltk_word_tokenize about_slv) then
    NETree.node "S"
      [NETree.leaf "Located" "VBN", NETree.leaf "in" "IN",
       NETree.node "GPE" [NETree.leaf "Melbourne" "NNP"],
       NETree.leaf "," ",", NETree.leaf "it" "PRP", NETree.leaf "was" "VBD",
       NETree.leaf "established" "VBN", NETree.leaf "in" "IN",
       NETree.leaf "1854" "CD", NETree.leaf "as" "IN", NETree.leaf "the" "DT",
       NETree.node "ORGANIZATION"
         [NETree.leaf "Melbourne" "NNP", NETree.leaf "Public" "NNP",
          NETree.leaf "Library" "NNP"],
       NETree.leaf "," ",", NETree.leaf "making" "VBG", NETree.leaf "it" "PRP",
       NETree.node "GPE" [NETree.leaf "Australia" "NNP"],
       NETree.leaf "'s" "POS", NETree.leaf "oldest" "JJS",
       NETree.leaf "public" "JJ", NETree.leaf "library" "NN",
       NETree.leaf "and" "CC", NETree.leaf "one" "CD", NETree.leaf "of" "IN",
       NETree.leaf "the" "DT", NETree.leaf "first" "JJ",
       NETree.leaf "free" "JJ", NETree.leaf "libraries" "NNS",
       NETree.leaf "in" "IN", NETree.leaf "the" "DT",
       NETree.leaf "world" "NN", NETree.leaf "." "."]
  else NETree.node "S" (ts.map fun p => NETree.leaf p.1 p.2)

/-- `tokens = nltk.word_tokenize(about_slv)` (tokenisation cell). -/
def tokens : List String := nltk_word_tokenize about_slv

/-- `tagged_tokens = nltk.pos_tag(tokens)` (tagging cell). -/
def tagged_tokens : List (String × String) := nltk_pos_tag tokens

/-- `entities = nltk.ne_chunk(tagged_tokens)` (chunking cell). -/
def entities : NETree := nltk_ne_chunk tagged_tokens

/-- The entity spans of a chunker tree: the labelled subtrees directly
under the root, each reported as its label together with its leaf
tokens in order. -/
def entitySpans : NETree → List (String × List String)
  | NETree.leaf _ _ => []
  | NETree.node _ children =>
    children.filterMap fun c =>
      match c with
      | NETree.node lbl ls =>
        some (lbl, ls.filterMap fun l =>
          match l with
          | NETree.leaf t _ => some t
          | NETree.node _ _ => none)
      | NETree.leaf _ _ => none

mutual

/-- The in-order (token, tag) leaves of a chunker tree. -/
def NETree.flatten : NETree → List (String × String)
  | NETree.leaf t g => [(t, g)]
  | NETree.node _ cs => flattenChildren cs

/-- The in-order (token, tag) leaves of a forest of chunker trees. -/
def flattenChildren : List NETree → List (String × String)
  | [] => []
  | c :: cs => NETree.flatten c ++ flattenChildren cs

end

/-- Claim C4: tokenizing the fixed sentence `about_slv` with the toolkit
tokenizer yields exactly the fixed known 33-token sequence recorded in the
notebook. -/
theorem tokenize_fixed_sentence_yields_33_tokens :
    tokens =
      ["Located", "in", "Melbourne", ",", "it", "was", "established", "in",
       "1854", "as", "the", "Melbourne", "Public", "Library", ",", "making",
       "it", "Australia", "'s", "oldest", "public", "library", "and", "one",
       "of", "the", "first", "free", "libraries", "in", "the", "world", "."] ∧
    tokens.length = 33 := by
  decide

/-- Claim C5: part-of-speech tagging the token sequence of the fixed
sentence yields exactly the tag sequence recorded in the notebook, pairing
each input token in order with its recorded tag. -/
theorem pos_tag_fixed_sentence_yields_recorded_tags :
    tagged_tokens =
      [("Located", "VBN"), ("in", "IN"), ("Melbourne", "NNP"), (",", ","),
       ("it", "PRP"), ("was", "VBD"), ("established", "VBN"), ("in", "IN"),
       ("1854", "CD"), ("as", "IN"), ("the", "DT"), ("Melbourne", "NNP"),
       ("Public", "NNP"), ("Library", "NNP"), (",", ","), ("making", "VBG"),
       ("it", "PRP"), ("Australia", "NNP"), ("'s", "POS"), ("oldest", "JJS"),
       ("public", "JJ"), ("library", "NN"), ("and", "CC"), ("one", "CD"),
       ("of", "IN"), ("the", "DT"), ("first", "JJ"), ("free", "JJ"),
       ("libraries", "NNS"), ("in", "IN"), ("the", "DT"), ("world", "NN"),
       (".", ".")] ∧
    tagged_tokens.map Prod.fst = tokens := by
  decide

/-- Claim C6: the entity chunker recognizes exactly three entity spans in
the fixed sentence — `Melbourne` as GPE, `Melbourne Public Library` as
ORGANIZATION and `Australia` as GPE — and no others; the tree's leaves are
exactly the tagged tokens of the sentence. -/
theorem chunker_recognizes_three_entities :
    entitySpans entities =
      [("GPE", ["Melbourne"]),
       ("ORGANIZATION", ["Melbourne", "Public", "Library"]),
       ("GPE", ["Australia"])] ∧
    NETree.flatten entities = tagged_tokens := by
  decide

/-! ## IIIF notebook: data model -/

/-- JSON values, the shape of the IIIF presentation manifest the notebook
consumes read-only. -/
inductive Json where
  | null
  | bool (b : Bool)
  | str (s : String)
  | num (n : Int)
  | arr (elems : List Json)
  | obj (fields : List (String × Json))

/-- Python dictionary subscript `d[k]`: the value of the first field named
`k`, a `KeyError` when the key is absent, a `TypeError` when the value is
not a dictionary. -/
def Json.getKey : Json → String → Except String Json
  | Json.obj fields, k =>
    match fields.lookup k with
    | some v => Except.ok v
    | none => Except.error ("KeyError: " ++ k)
  | _, k => Except.error ("TypeError: value is not subscriptable by key " ++ k)

/-- Python list subscript `xs[i]` for a non-negative index: the element at
`i`, an `IndexError` when out of range, a `TypeError` when the value is
not a list. -/
def Json.getIdx : Json → Nat → Except String Json
  | Json.arr elems, i =>
    match elems.get? i with
    | some v => Except.ok v
    | none => Except.error "IndexError: list index out of range"
  | _, _ => Except.error "TypeError: value is not a list"

/-- Python `str()` as used by f-string interpolation.  Only the rendering
of JSON strings (the raw text) matters to the notebook; the remaining
cases are schematic renderings of the other value shapes. -/
def Json.fmt : Json → String
  | Json.null => "None"
  | Json.bool b => if b then "True" else "False"
  | Json.str s => s
  | Json.num n => toString n
  | Json.arr _ => "[list]"
  | Json.obj _ => "[dict]"

/-- The external effects the IIIF notebook uses: the HTTP client
(`requests.get`), the JSON decoder (`response.json()`) and the image
decoder (`PIL.Image.open` on a response body). -/
structure World where
  httpGet : String → Except String String
  parseJson : String → Except String Json
  decodeImage : String → Except String Unit

/-- A notebook computation together with the list of URLs of the HTTP GET
requests it issued, in order. -/
abbrev Traced (α : Type) : Type := List String × Except String α

/-- Sequencing of traced computations: on failure the run halts, keeping
the requests already issued. -/
def tbind {α β : Type} (x : Traced α) (f : α → Traced β) : Traced β :=
  match x with
  | (t, Except.error e) => (t, Except.error e)
  | (t, Except.ok a) => let r := f a; (t ++ r.fst, r.snd)

/-- A traced computation that issues no request. -/
def tlift {α : Type} (r : Except String α) : Traced α := ([], r)

/-- `requests.get(url)`: issues exactly one GET and yields the raw
response body (or the network error the library raises). -/
def tget (w : World) (url : String) : Traced String := ([url], w.httpGet url)

/-! ## IIIF notebook: cells -/

/-- `ie_pid = "IE145082"`. -/
def ie_pid : String := "IE145082"

/-- The manifest request URL the notebook builds by f-string interpolation
of `ie_pid`. -/
def manifestUrlOf (pid : String) : String :=
  "https://rosetta.slv.vic.gov.au/delivery/iiif/presentation/2.1/" ++ pid ++ "/manifest"

/-- `manifest_url` as the notebook computes it. -/
def manifest_url : String := manifestUrlOf ie_pid

/-- The documented IIIF Presentation API form
`server ++ "/delivery/iiif/presentation/2.1/" ++ identifier ++ "/manifest"`
stated by the spec. -/
def documentedManifestForm (server ident : String) : String :=
  server ++ "/delivery/iiif/presentation/2.1/" ++ ident ++ "/manifest"

/-- The manifest fetch cell: one GET against `manifest_url`, then
`response.json()`. -/
def manifestCell (w : World) (pid : String) : Traced Json :=
  tbind (tget w (manifestUrlOf pid)) fun body => tlift (w.parseJson body)

/-- The metadata cell: `manifest["attribution"]`, `manifest["label"]`,
then the f-string `"Copyright:  {attribution}. Title: {title}"`. -/
def attributionCell (m : Json) : Except String String :=
  (m.getKey "attribution").bind fun attribution =>
  (m.getKey "label").bind fun title =>
  Except.ok ("Copyright:  " ++ attribution.fmt ++ ". Title: " ++ title.fmt)

/-- The canvases cell: `canvases = manifest["sequences"][0]["canvases"]`. -/
def canvasesCell (m : Json) : Except String Json :=
  (m.getKey "sequences").bind fun seqs =>
  (seqs.getIdx 0).bind fun s0 =>
  s0.getKey "canvases"

/-- The subexpression `canvas["images"][0]` that every read in the canvas
loop starts from. -/
def firstImage (canvas : Json) : Except String Json :=
  (canvas.getKey "images").bind fun imgs => imgs.getIdx 0

/-- `canvas["images"][0]["resource"]["service"]["@id"]` (canvas loop). -/
def canvasImageId (canvas : Json) : Except String Json :=
  (firstImage canvas).bind fun i0 =>
  (i0.getKey "resource").bind fun r =>
  (r.getKey "service").bind fun sv =>
  sv.getKey "@id"

/-- `canvas["images"][0]["resource"]["format"]` (canvas loop). -/
def canvasFormat (canvas : Json) : Except String Json :=
  (firstImage canvas).bind fun i0 =>
  (i0.getKey "resource").bind fun r =>
  r.getKey "format"

/-- `canvas["images"][0]["resource"]["width"]` (canvas loop). -/
def canvasWidth (canvas : Json) : Except String Json :=
  (firstImage canvas).bind fun i0 =>
  (i0.getKey "resource").bind fun r =>
  r.getKey "width"

/-- `canvas["images"][0]["resource"]["height"]` (canvas loop). -/
def canvasHeight (canvas : Json) : Except String Json :=
  (firstImage canvas).bind fun i0 =>
  (i0.getKey "resource").bind fun r =>
  r.getKey "height"

/-- The four values one iteration of the canvas loop displays. -/
def canvasDisplay (canvas : Json) : Except String (Json × Json × Json × Json) :=
  (canvasImageId canvas).bind fun i =>
  (canvasFormat canvas).bind fun f =>
  (canvasWidth canvas).bind fun wd =>
  (canvasHeight canvas).bind fun ht =>
  Except.ok (i, f, wd, ht)

/-- Left-to-right effectful map, the shape of a Python `for` loop whose
body may raise. -/
def mapExcept {α β : Type} (f : α → Except String β) : List α → Except String (List β)
  | [] => Except.ok []
  | x :: xs =>
    (f x).bind fun y =>
    (mapExcept f xs).bind fun ys =>
    Except.ok (y :: ys)

/-- The canvas loop cell: `for canvas in canvases: ...` displaying the
four fields of each canvas's first image. -/
def canvasLoopCell (canvases : Json) : Except String (List (Json × Json × Json × Json)) :=
  match canvases with
  | Json.arr cs => mapExcept canvasDisplay cs
  | _ => Except.error "TypeError: value is not iterable"

/-- The subexpression `canvases[0]["images"][0]` the image-id cell starts
from. -/
def firstCanvasImage (canvases : Json) : Except String Json :=
  (canvases.getIdx 0).bind fun c0 =>
  (c0.getKey "images").bind fun imgs =>
  imgs.getIdx 0

/-- The image-id cell:
`image_id = canvases[0]["images"][0]["resource"]["service"]["@id"]`. -/
def imageIdCellOf (canvases : Json) : Except String Json :=
  (firstCanvasImage canvases).bind fun i0 =>
  (i0.getKey "resource").bind fun r =>
  (r.getKey "service").bind fun sv =>
  sv.getKey "@id"

/-! ## IIIF notebook: image request URLs -/

/-- The first image request: `image_url = f"{image_id}/full/max/0/default.jpg"`. -/
def imageUrlFull (image_id : String) : String :=
  image_id ++ "/full/max/0/default.jpg"

/-- The four URL parameters the later image-request cells assign and reuse. -/
structure ImgParams where
  region : String
  size : String
  rotation : String
  quality : String

/-- The parameterised image request:
`image_url = f"{image_id}/{region}/{size}/{rotation}/{quality}.jpg"`. -/
def imageUrlOf (image_id : String) (p : ImgParams) : String :=
  image_id ++ "/" ++ p.region ++ "/" ++ p.size ++ "/" ++ p.rotation ++ "/" ++ p.quality ++ ".jpg"

/-- Parameter values after the `pct:10` cell
(`region = "full"; rotation = "0"; size = "pct:10"; quality = "default"`). -/
def paramsCell2 : ImgParams :=
  { region := "full", size := "pct:10", rotation := "0", quality := "default" }

/-- Parameter values after the `quality = "gray"` cell. -/
def paramsCell3 : ImgParams := { paramsCell2 with quality := "gray" }

/-- Parameter values after the first region-crop cell
(`region = "0,1400,2400,2300"; size = "pct:15"`). -/
def paramsCell4 : ImgParams :=
  { paramsCell3 with region := "0,1400,2400,2300", size := "pct:15" }

/-- Parameter values after the second region-crop cell
(`region = "3400,1400,2700,2700"`). -/
def paramsCell5 : ImgParams := { paramsCell4 with region := "3400,1400,2700,2700" }

/-- An image request cell: one GET against the constructed URL, then
`Image.open` on the raw body. -/
def fetchImageCell (w : World) (url : String) : Traced Unit :=
  tbind (tget w url) fun body => tlift (w.decodeImage body)

/-- The whole IIIF notebook, run top to bottom: manifest fetch, metadata
access, canvases access, canvas loop, image-id access, then the five
image requests; execution halts at the first failure. -/
def runIIIF (w : World) : Traced Unit :=
  tbind (manifestCell w ie_pid) fun manifest =>
  tbind (tlift (attributionCell manifest)) fun _ =>
  tbind (tlift (canvasesCell manifest)) fun canvases =>
  tbind (tlift (canvasLoopCell canvases)) fun _ =>
  tbind (tlift (imageIdCellOf canvases)) fun imageIdJ =>
  tbind (fetchImageCell w (imageUrlFull imageIdJ.fmt)) fun _ =>
  tbind (fetchImageCell w (imageUrlOf imageIdJ.fmt paramsCell2)) fun _ =>
  tbind (fetchImageCell w (imageUrlOf imageIdJ.fmt paramsCell3)) fun _ =>
  tbind (fetchImageCell w (imageUrlOf imageIdJ.fmt paramsCell4)) fun _ =>
  fetchImageCell w (imageUrlOf imageIdJ.fmt paramsCell5)

/-! ## Helper lemmas and sample data -/

/-- String concatenation is associative. -/
theorem str_append_assoc (a b c : String) : a ++ b ++ c = a ++ (b ++ c) := by
  apply String.ext
  simp [String.data_append]

/-- `Except.bind` is associative. -/
theorem except_bind_assoc {ε α β γ : Type} (a : Except ε α)
    (f : α → Except ε β) (k : β → Except ε γ) :
    (a.bind f).bind k = a.bind fun x => (f x).bind k := by
  cases a <;> rfl

/-- Whether an `Except` value is an error. -/
def exceptIsErr {ε α : Type} : Except ε α → Bool
  | Except.error _ => true
  | Except.ok _ => false

/-- Whether an `Except` value is a success. -/
def exceptIsOk {ε α : Type} : Except ε α → Bool
  | Except.error _ => false
  | Except.ok _ => true

/-- A bind of `Except` computations fails exactly when its first
computation fails, or that computation succeeds and the continuation
fails on its result. -/
theorem exceptIsErr_bind {ε α β : Type} (a : Except ε α) (f : α → Except ε β) :
    exceptIsErr (a.bind f) = true ↔
      exceptIsErr a = true ∨ ∃ x, a = Except.ok x ∧ exceptIsErr (f x) = true := by
  cases a <;> simp [Except.bind, exceptIsErr]

/-- An effectful loop fails exactly when its body fails on some element
of the list. -/
theorem exceptIsErr_mapExcept {α β : Type} (f : α → Except String β) (l : List α) :
    exceptIsErr (mapExcept f l) = true ↔ ∃ x ∈ l, exceptIsErr (f x) = true := by
  induction l with
  | nil => simp [mapExcept, exceptIsErr]
  | cons x xs ih =>
    cases hx : f x with
    | error e =>
      simp only [mapExcept, hx, Except.bind, exceptIsErr]
      constructor
      · intro _
        exact ⟨x, List.mem_cons_self x xs, by simp [hx, exceptIsErr]⟩
      · intro _
        trivial
    | ok y =>
      cases hm : mapExcept f xs with
      | error e =>
        simp only [mapExcept, hx, hm, Except.bind, exceptIsErr]
        constructor
        · intro _
          obtain ⟨z, hz, hez⟩ := ih.mp (by simp [hm, exceptIsErr])
          exact ⟨z, List.mem_cons_of_mem x hz, hez⟩
        · intro _
          trivial
      | ok ys =>
        simp only [mapExcept, hx, hm, Except.bind, exceptIsErr]
        constructor
        · intro hfalse
          simp at hfalse
        · rintro ⟨z, hz, hez⟩
          rcases List.mem_cons.mp hz with rfl | hz'
          · rw [hx] at hez
            simp [exceptIsErr] at hez
          · have h2 : exceptIsErr (mapExcept f xs) = true := ih.mpr ⟨z, hz', hez⟩
            rw [hm] at h2
            simp [exceptIsErr] at h2

/-- The image service identifier the notebook's markdown records for
`IE145082`. -/
def sampleImageId : String :=
  "https://rosetta.slv.vic.gov.au:2083/iiif/2/IE145082:FL21000768.jpg"

/-- A first image entry shaped like the one the notebook's markdown
records. -/
def sampleImage0 : Json :=
  Json.obj [("resource",
    Json.obj [("service", Json.obj [("@id", Json.str sampleImageId)]),
              ("format", Json.str "image/jpeg"),
              ("width", Json.num 7000),
              ("height", Json.num 5257)])]

/-- A canvas whose `images` array holds exactly the sample image. -/
def sampleCanvas : Json := Json.obj [("images", Json.arr [sampleImage0])]

/-- The same canvas with an extra image entry after the first. -/
def sampleCanvasExtra : Json :=
  Json.obj [("images", Json.arr [sampleImage0, Json.null])]

/-- A manifest shaped like the one the notebook's markdown records. -/
def sampleManifest : Json :=
  Json.obj [("attribution", Json.str "This work is out of copyright"),
            ("label", Json.str "[Berkshire pig with points marked on image]"),
            ("sequences", Json.arr [Json.obj [("canvases", Json.arr [sampleCanvas])]])]

/-- A world on which every external call succeeds and the manifest body
decodes to `sampleManifest`. -/
def sampleWorld : World where
  httpGet := fun _ => Except.ok "body"
  parseJson := fun _ => Except.ok sampleManifest
  decodeImage := fun _ => Except.ok ()

/-- A world on which every GET raises a network error. -/
def failWorld : World where
  httpGet := fun _ => Except.error "ConnectionError"
  parseJson := fun _ => Except.error "JSONDecodeError"
  decodeImage := fun _ => Except.error "UnidentifiedImageError"

/-- A world on which the manifest fetch succeeds, returning
`sampleManifest`, but every image GET raises a network error. -/
def imageFailWorld : World where
  httpGet := fun u =>
    if u = manifest_url then Except.ok "body" else Except.error "ConnectionError"
  parseJson := fun _ => Except.ok sampleManifest
  decodeImage := fun _ => Except.ok ()

/-! ## Claim theorems: IIIF URL construction -/

/-- The IIIF Image API template
`scheme ++ "://" ++ server ++ "/" ++ pfx ++ "/" ++ ident ++ "/" ++ region
++ "/" ++ size ++ "/" ++ rotation ++ "/" ++ quality ++ "." ++ fmt`
fixed by the external standard the spec cites. -/
def iiifImageTemplate (scheme server pfx ident region size rotation quality fmt : String) : String :=
  scheme ++ "://" ++ server ++ "/" ++ pfx ++ "/" ++ ident ++ "/" ++ region
    ++ "/" ++ size ++ "/" ++ rotation ++ "/" ++ quality ++ "." ++ fmt

/-- Claim C1: every image request URL the notebook constructs equals the
standardized IIIF Image API template instantiated with the current values
of region, size, rotation, quality and format, for an image identifier of
the form scheme://server/pfx/ident. -/
theorem image_urls_match_iiif_template (scheme server pfx ident : String) :
    imageUrlFull (scheme ++ "://" ++ server ++ "/" ++ pfx ++ "/" ++ ident) =
      iiifImageTemplate scheme server pfx ident "full" "max" "0" "default" "jpg" ∧
    imageUrlOf (scheme ++ "://" ++ server ++ "/" ++ pfx ++ "/" ++ ident) paramsCell2 =
      iiifImageTemplate scheme server pfx ident "full" "pct:10" "0" "default" "jpg" ∧
    imageUrlOf (scheme ++ "://" ++ server ++ "/" ++ pfx ++ "/" ++ ident) paramsCell3 =
      iiifImageTemplate scheme server pfx ident "full" "pct:10" "0" "gray" "jpg" ∧
    imageUrlOf (scheme ++ "://" ++ server ++ "/" ++ pfx ++ "/" ++ ident) paramsCell4 =
      iiifImageTemplate scheme server pfx ident "0,1400,2400,2300" "pct:15" "0" "gray" "jpg" ∧
    imageUrlOf (scheme ++ "://" ++ server ++ "/" ++ pfx ++ "/" ++ ident) paramsCell5 =
      iiifImageTemplate scheme server pfx ident "3400,1400,2700,2700" "pct:15" "0" "gray" "jpg" := by
  refine ⟨?_, ?_, ?_, ?_, ?_⟩ <;>
    simp only [imageUrlFull, imageUrlOf, iiifImageTemplate,
      paramsCell2, paramsCell3, paramsCell4, paramsCell5, str_append_assoc] <;>
    rfl

/-- Claim C2: for every identifier, the manifest request URL equals the
documented form server/delivery/iiif/presentation/2.1/identifier/manifest
with the Rosetta server, the manifest cell issues exactly one GET against
that URL, and its result is the JSON decoding of the response body. -/
theorem manifest_request_url_and_fetch (w : World) (pid : String) :
    manifestUrlOf pid =
      "https://rosetta.slv.vic.gov.au/delivery/iiif/presentation/2.1/" ++ pid ++ "/manifest" ∧
    manifestUrlOf pid = documentedManifestForm "https://rosetta.slv.vic.gov.au" pid ∧
    (manifestCell w pid).fst = [manifestUrlOf pid] ∧
    (manifestCell w pid).snd = (w.httpGet (manifestUrlOf pid)).bind w.parseJson := by
  refine ⟨rfl, ?_, ?_, ?_⟩
  · simp only [manifestUrlOf, documentedManifestForm]
    rw [show ("https://rosetta.slv.vic.gov.au/delivery/iiif/presentation/2.1/" : String) =
          "https://rosetta.slv.vic.gov.au" ++ "/delivery/iiif/presentation/2.1/" from rfl]
  · cases hg : w.httpGet (manifestUrlOf pid) <;>
      simp [manifestCell, tbind, tget, tlift, hg]
  · cases hg : w.httpGet (manifestUrlOf pid) <;>
      simp [manifestCell, tbind, tget, tlift, Except.bind, hg]

/-- Splitting a character list on a separator character. -/
def splitOnCharAux (c : Char) : List Char → List Char → List String
  | [], acc => [String.mk acc.reverse]
  | x :: xs, acc =>
    if x = c then String.mk acc.reverse :: splitOnCharAux c xs []
    else splitOnCharAux c xs (x :: acc)

/-- Splitting a string on a separator character. -/
def splitOnChar (c : Char) (s : String) : List String :=
  splitOnCharAux c s.data []

/-- Parsing the path that follows the image identifier in a IIIF Image API
URL: exactly four slash-separated segments — region, size, rotation and
quality.format, the last containing a dot-separated quality and format. -/
def parseIIIFSuffix (s : String) : Option (String × String × String × String × String) :=
  match splitOnChar '/' s with
  | [r, sz, rot, qf] =>
    match splitOnChar '.' qf with
    | [q, f] => some (r, sz, rot, q, f)
    | _ => none
  | _ => none

/-- Claim C7: with the fixed parameter values of the notebook, each
constructed image request URL is the image identifier followed by a path
that parses into region, size, rotation and quality.format segments in
that order. -/
theorem constructed_urls_parse_as_iiif (image_id : String) :
    (imageUrlFull image_id = image_id ++ "/" ++ "full/max/0/default.jpg" ∧
     parseIIIFSuffix "full/max/0/default.jpg" =
       some ("full", "max", "0", "default", "jpg")) ∧
    (imageUrlOf image_id paramsCell2 = image_id ++ "/" ++ "full/pct:10/0/default.jpg" ∧
     parseIIIFSuffix "full/pct:10/0/default.jpg" =
       some ("full", "pct:10", "0", "default", "jpg")) ∧
    (imageUrlOf image_id paramsCell3 = image_id ++ "/" ++ "full/pct:10/0/gray.jpg" ∧
     parseIIIFSuffix "full/pct:10/0/gray.jpg" =
       some ("full", "pct:10", "0", "gray", "jpg")) ∧
    (imageUrlOf image_id paramsCell4 =
       image_id ++ "/" ++ "0,1400,2400,2300/pct:15/0/gray.jpg" ∧
     parseIIIFSuffix "0,1400,2400,2300/pct:15/0/gray.jpg" =
       some ("0,1400,2400,2300", "pct:15", "0", "gray", "jpg")) ∧
    (imageUrlOf image_id paramsCell5 =
       image_id ++ "/" ++ "3400,1400,2700,2700/pct:15/0/gray.jpg" ∧
     parseIIIFSuffix "3400,1400,2700,2700/pct:15/0/gray.jpg" =
       some ("3400,1400,2700,2700", "pct:15", "0", "gray", "jpg")) := by
  refine ⟨⟨?_, by decide⟩, ⟨?_, by decide⟩, ⟨?_, by decide⟩, ⟨?_, by decide⟩, ⟨?_, by decide⟩⟩ <;>
    simp only [imageUrlFull, imageUrlOf,
      paramsCell2, paramsCell3, paramsCell4, paramsCell5, str_append_assoc] <;>
    rfl

/-- The manifest cell always issues exactly the manifest request. -/
theorem manifestCell_fst (w : World) (pid : String) :
    (manifestCell w pid).fst = [manifestUrlOf pid] := by
  cases hg : w.httpGet (manifestUrlOf pid) <;>
    simp [manifestCell, tbind, tget, tlift, hg]

/-- An image cell always issues exactly its one request. -/
theorem fetchImageCell_fst (w : World) (url : String) :
    (fetchImageCell w url).fst = [url] := by
  cases hg : w.httpGet url <;>
    simp [fetchImageCell, tbind, tget, tlift, hg]

/-- Claim C8: the notebook has no error handling — every cell's result is
an error exactly when one of the operations it calls fails: the manifest
cell fails exactly when the GET or the JSON decoding fails; the metadata
cell fails exactly when the `attribution` or `label` access fails; the
canvases cell fails exactly when the `sequences` access, the `[0]`
indexing or the `canvases` access fails; the canvas loop fails exactly
when some canvas's display fails; the image-id cell fails exactly when
some accessor of its chain fails; an image cell fails exactly when its
GET or the image decoding fails; and a network failure on the manifest
GET, or on the first image GET of a run that got that far, halts the
whole notebook at that point with no further request. -/
theorem failures_propagate_unhandled (w : World) (pid : String) (m : Json)
    (url : String) (l : List Json) (cvs : Json) :
    (exceptIsErr (manifestCell w pid).snd = true ↔
      exceptIsErr (w.httpGet (manifestUrlOf pid)) = true ∨
      ∃ body, w.httpGet (manifestUrlOf pid) = Except.ok body ∧
        exceptIsErr (w.parseJson body) = true) ∧
    (exceptIsErr (attributionCell m) = true ↔
      exceptIsErr (m.getKey "attribution") = true ∨
      exceptIsErr (m.getKey "label") = true) ∧
    (exceptIsErr (canvasesCell m) = true ↔
      exceptIsErr (m.getKey "sequences") = true ∨
      ∃ seqs, m.getKey "sequences" = Except.ok seqs ∧
        (exceptIsErr (seqs.getIdx 0) = true ∨
         ∃ s0, seqs.getIdx 0 = Except.ok s0 ∧
           exceptIsErr (s0.getKey "canvases") = true)) ∧
    (exceptIsErr (canvasLoopCell (Json.arr l)) = true ↔
      ∃ c ∈ l, exceptIsErr (canvasDisplay c) = true) ∧
    (exceptIsErr (imageIdCellOf cvs) = true ↔
      exceptIsErr (cvs.getIdx 0) = true ∨
      ∃ c0, cvs.getIdx 0 = Except.ok c0 ∧
        (exceptIsErr (c0.getKey "images") = true ∨
         ∃ imgs, c0.getKey "images" = Except.ok imgs ∧
           (exceptIsErr (imgs.getIdx 0) = true ∨
            ∃ i0, imgs.getIdx 0 = Except.ok i0 ∧
              (exceptIsErr (i0.getKey "resource") = true ∨
               ∃ r, i0.getKey "resource" = Except.ok r ∧
                 (exceptIsErr (r.getKey "service") = true ∨
                  ∃ sv, r.getKey "service" = Except.ok sv ∧
                    exceptIsErr (sv.getKey "@id") = true))))) ∧
    ((fetchImageCell w url).fst = [url] ∧
     (exceptIsErr (fetchImageCell w url).snd = true ↔
       exceptIsErr (w.httpGet url) = true ∨
       ∃ body, w.httpGet url = Except.ok body ∧
         exceptIsErr (w.decodeImage body) = true)) ∧
    (exceptIsErr (w.httpGet manifest_url) = true →
      (runIIIF w).fst = [manifest_url] ∧ exceptIsErr (runIIIF w).snd = true) ∧
    (∀ body mf s cs ds j,
      w.httpGet (manifestUrlOf ie_pid) = Except.ok body →
      w.parseJson body = Except.ok mf →
      attributionCell mf = Except.ok s →
      canvasesCell mf = Except.ok cs →
      canvasLoopCell cs = Except.ok ds →
      imageIdCellOf cs = Except.ok j →
      exceptIsErr (w.httpGet (imageUrlFull j.fmt)) = true →
      (runIIIF w).fst = [manifest_url, imageUrlFull j.fmt] ∧
      exceptIsErr (runIIIF w).snd = true) := by
  refine ⟨?_, ?_, ?_, ?_, ?_, ⟨?_, ?_⟩, ?_, ?_⟩
  · cases hg : w.httpGet (manifestUrlOf pid) with
    | error e => simp [manifestCell, tbind, tget, tlift, exceptIsErr, hg]
    | ok body =>
      cases hp : w.parseJson body <;>
        simp [manifestCell, tbind, tget, tlift, exceptIsErr, hg, hp]
  · cases ha : m.getKey "attribution" with
    | error e => simp [attributionCell, Except.bind, exceptIsErr, ha]
    | ok a =>
      cases hl : m.getKey "label" <;>
        simp [attributionCell, Except.bind, exceptIsErr, ha, hl]
  · simp [canvasesCell, exceptIsErr_bind]
  · simp [canvasLoopCell, exceptIsErr_mapExcept]
  · simp [imageIdCellOf, firstCanvasImage, except_bind_assoc, exceptIsErr_bind]
  · cases hg : w.httpGet url <;>
      simp [fetchImageCell, tbind, tget, tlift, hg]
  · cases hg : w.httpGet url with
    | error e => simp [fetchImageCell, tbind, tget, tlift, exceptIsErr, hg]
    | ok body =>
      cases hd : w.decodeImage body <;>
        simp [fetchImageCell, tbind, tget, tlift, exceptIsErr, hg, hd]
  · intro hg
    cases hge : w.httpGet (manifestUrlOf ie_pid) with
    | error e =>
      constructor <;>
        simp [runIIIF, manifestCell, tbind, tget, tlift, exceptIsErr, manifest_url, hge]
    | ok body =>
      simp only [manifest_url] at hg
      rw [hge] at hg
      simp [exceptIsErr] at hg
  · intro body mf s cs ds j h1 h2 h3 h4 h5 h6 h7
    cases hg : w.httpGet (imageUrlFull j.fmt) with
    | error e =>
      constructor <;>
        simp [runIIIF, manifestCell, fetchImageCell, tbind, tget, tlift,
          manifest_url, exceptIsErr, h1, h2, h3, h4, h5, h6, hg]
    | ok b =>
      rw [hg] at h7
      simp [exceptIsErr] at h7

/-- Witness for C8: on a world whose GETs all fail, the run is the single
manifest request ending in an error; on a world where only image GETs
fail, the run is the manifest request plus the first image request,
ending in an error. -/
theorem failures_propagate_unhandled_witness :
    ((runIIIF failWorld).fst = [manifest_url] ∧
      exceptIsErr (runIIIF failWorld).snd = true) ∧
    ((runIIIF imageFailWorld).fst = [manifest_url, imageUrlFull sampleImageId] ∧
      exceptIsErr (runIIIF imageFailWorld).snd = true) :=
  ⟨(failures_propagate_unhandled failWorld ie_pid Json.null "u" [] Json.null).2.2.2.2.2.2.1
      (by decide),
   (failures_propagate_unhandled imageFailWorld ie_pid Json.null "u" [] Json.null).2.2.2.2.2.2.2
      "body" sampleManifest _ (Json.arr [sampleCanvas]) _ (Json.str sampleImageId)
      rfl rfl rfl rfl rfl rfl (by decide)⟩

/-- Claim C9: the cells form a pure variable-handoff pipeline — the entity
tree is exactly the chunker applied to the tagger applied to the tokenizer
applied to the input text, and the image identifier is derived from the
manifest only through `sequences[0].canvases` followed by
`[0].images[0].resource.service.@id`. -/
theorem cells_form_pure_pipeline :
    entities = nltk_ne_chunk (nltk_pos_tag (nltk_word_tokenize about_slv)) ∧
    tagged_tokens = nltk_pos_tag (nltk_word_tokenize about_slv) ∧
    tokens = nltk_word_tokenize about_slv ∧
    ∀ m : Json,
      (canvasesCell m).bind (fun cs => imageIdCellOf cs) =
        (m.getKey "sequences").bind fun seqs =>
        (seqs.getIdx 0).bind fun s0 =>
        (s0.getKey "canvases").bind fun cs =>
        (cs.getIdx 0).bind fun c0 =>
        (c0.getKey "images").bind fun imgs =>
        (imgs.getIdx 0).bind fun i0 =>
        (i0.getKey "resource").bind fun r =>
        (r.getKey "service").bind fun sv =>
        sv.getKey "@id" := by
  refine ⟨rfl, rfl, rfl, fun m => ?_⟩
  simp only [canvasesCell, imageIdCellOf, firstCanvasImage, except_bind_assoc]

/-- Claim C10: each canvas-loop iteration and the image-id cell read only
the first element of the relevant `images` array — two canvases agreeing
on `images[0]` display identically, and two canvases arrays agreeing on
`[0].images[0]` give the same image identifier. -/
theorem only_first_image_entry_read :
    (∀ c c' : Json, firstImage c = firstImage c' →
      canvasDisplay c = canvasDisplay c') ∧
    (∀ cs cs' : Json, firstCanvasImage cs = firstCanvasImage cs' →
      imageIdCellOf cs = imageIdCellOf cs') := by
  constructor
  · intro c c' h
    simp only [canvasDisplay, canvasImageId, canvasFormat, canvasWidth, canvasHeight, h]
  · intro cs cs' h
    simp only [imageIdCellOf, h]

/-- Witness for C10: adding an extra image entry after the first, or an
extra canvas after the first, changes neither the displayed values nor
the image identifier. -/
theorem only_first_image_entry_read_witness :
    canvasDisplay sampleCanvas = canvasDisplay sampleCanvasExtra ∧
    imageIdCellOf (Json.arr [sampleCanvas]) =
      imageIdCellOf (Json.arr [sampleCanvas, Json.null]) :=
  ⟨only_first_image_entry_read.1 sampleCanvas sampleCanvasExtra rfl,
   only_first_image_entry_read.2 (Json.arr [sampleCanvas])
     (Json.arr [sampleCanvas, Json.null]) rfl⟩

/-- Counterexample to claim C3: a complete successful execution of the
IIIF notebook issues six HTTP GET requests (one manifest fetch and five
image fetches), not exactly one. -/
theorem iiif_not_single_get :
    exceptIsOk (runIIIF sampleWorld).snd = true ∧
    (runIIIF sampleWorld).fst.length = 6 ∧
    (runIIIF sampleWorld).fst.length ≠ 1 := by
  decide

/-- Claim C3 as amended: every execution of the IIIF notebook that
completes successfully issues exactly six HTTP GET requests — one per
network-touching cell — rather than one in total. -/
theorem iiif_six_gets_on_success (w : World)
    (h : exceptIsOk (runIIIF w).snd = true) :
    (runIIIF w).fst.length = 6 := by
  unfold runIIIF manifestCell fetchImageCell at h ⊢
  simp only [tbind, tget, tlift] at h ⊢
  cases hg0 : w.httpGet (manifestUrlOf ie_pid) with
  | error e => simp [hg0, exceptIsOk] at h
  | ok body =>
    cases hp : w.parseJson body with
    | error e => simp [hg0, hp, exceptIsOk] at h
    | ok m =>
      cases hat : attributionCell m with
      | error e => simp [hg0, hp, hat, exceptIsOk] at h
      | ok s1 =>
        cases hcv : canvasesCell m with
        | error e => simp [hg0, hp, hat, hcv, exceptIsOk] at h
        | ok cs =>
          cases hlp : canvasLoopCell cs with
          | error e => simp [hg0, hp, hat, hcv, hlp, exceptIsOk] at h
          | ok ds =>
            cases hid : imageIdCellOf cs with
            | error e => simp [hg0, hp, hat, hcv, hlp, hid, exceptIsOk] at h
            | ok j =>
              cases hg1 : w.httpGet (imageUrlFull j.fmt) with
              | error e => simp [hg0, hp, hat, hcv, hlp, hid, hg1, exceptIsOk] at h
              | ok b1 =>
                cases hd1 : w.decodeImage b1 with
                | error e => simp [hg0, hp, hat, hcv, hlp, hid, hg1, hd1, exceptIsOk] at h
                | ok u1 =>
                  cases hg2 : w.httpGet (imageUrlOf j.fmt paramsCell2) with
                  | error e => simp [hg0, hp, hat, hcv, hlp, hid, hg1, hd1, hg2, exceptIsOk] at h
                  | ok b2 =>
                    cases hd2 : w.decodeImage b2 with
                    | error e => simp [hg0, hp, hat, hcv, hlp, hid, hg1, hd1, hg2, hd2, exceptIsOk] at h
                    | ok u2 =>
                      cases hg3 : w.httpGet (imageUrlOf j.fmt paramsCell3) with
                      | error e => simp [hg0, hp, hat, hcv, hlp, hid, hg1, hd1, hg2, hd2, hg3, exceptIsOk] at h
                      | ok b3 =>
                        cases hd3 : w.decodeImage b3 with
                        | error e => simp [hg0, hp, hat, hcv, hlp, hid, hg1, hd1, hg2, hd2, hg3, hd3, exceptIsOk] at h
                        | ok u3 =>
                          cases hg4 : w.httpGet (imageUrlOf j.fmt paramsCell4) with
                          | error e => simp [hg0, hp, hat, hcv, hlp, hid, hg1, hd1, hg2, hd2, hg3, hd3, hg4, exceptIsOk] at h
                          | ok b4 =>
                            cases hd4 : w.decodeImage b4 with
                            | error e => simp [hg0, hp, hat, hcv, hlp, hid, hg1, hd1, hg2, hd2, hg3, hd3, hg4, hd4, exceptIsOk] at h
                            | ok u4 =>
                              cases hg5 : w.httpGet (imageUrlOf j.fmt paramsCell5) with
                              | error e => simp [hg0, hp, hat, hcv, hlp, hid, hg1, hd1, hg2, hd2, hg3, hd3, hg4, hd4, hg5, exceptIsOk] at h
                              | ok b5 =>
                                cases hd5 : w.decodeImage b5 with
                                | error e => simp [hg0, hp, hat, hcv, hlp, hid, hg1, hd1, hg2, hd2, hg3, hd3, hg4, hd4, hg5, hd5, exceptIsOk] at h
                                | ok u5 =>
                                  simp [hg0, hp, hat, hcv, hlp, hid, hg1, hd1, hg2, hd2, hg3, hd3, hg4, hd4, hg5, hd5]

/-- Witness for the amended C3: on the sample world the run succeeds and
issues exactly six GET requests. -/
theorem iiif_six_gets_on_success_witness :
    (runIIIF sampleWorld).fst.length = 6 :=
  iiif_six_gets_on_success sampleWorld (by decide)
